import Mathlib

/-!
Verification of the provider-normalization and tool-calling agent core of the
ChatSys chat-completion gateway.  Python source files are shallowly embedded:
dictionaries become structures with `Option` fields for keys that may be
absent (`dict.get` with a default becomes `Option.getD`), loops become folds
or structural recursion, and exceptions become `Except`.  Network and cluster
side effects are represented by explicit oracles and call traces.
-/

namespace ChatSys

/-! ## Data model (src/app/models.py)

A chat message as the adapters consume it: `{"role": ..., "content": ...}`
(src/app/chat.py line 30 builds exactly these two keys). -/

structure Message where
  role : String
  content : String
deriving Repr, DecidableEq

/-! ## Gemini adapter (src/app/adapters/gemini_adapter.py) -/

/-- One element of the `parts` list Gemini's `format_messages` emits:
`{"text": content}`. -/
structure GeminiPartOut where
  text : String
deriving Repr, DecidableEq

/-- One formatted Gemini message: `{"role": role, "parts": [{"text": content}]}`. -/
structure GeminiMessage where
  role : String
  parts : List GeminiPartOut
deriving Repr, DecidableEq

namespace GeminiAdapter

/-- `GeminiAdapter.format_messages` (gemini_adapter.py lines 32-53): the loop
body remaps `assistant` to `model` and `system` to `user` with the `"System: "`
prefix, then wraps each message as `{role, parts:[{text: content}]}`. -/
def format_messages (messages : List Message) : List GeminiMessage :=
  messages.map fun msg =>
    let role := msg.role
    let content := msg.content
    if role = "assistant" then
      { role := "model", parts := [{ text := content }] }
    else if role = "system" then
      { role := "user", parts := [{ text := "System: " ++ content }] }
    else
      { role := role, parts := [{ text := content }] }

end GeminiAdapter

/-! ## Anthropic adapter (src/app/adapters/anthropic_adapter.py) -/

namespace AnthropicAdapter

/-- `AnthropicAdapter.format_messages` (anthropic_adapter.py lines 32-50): a
single pass that drops every system message into the separate `system_content`
accumulator (each occurrence overwrites it; it starts as `""`) and appends every
other message unchanged. Returns the pair `(anthropic_messages, system_content)`. -/
def format_messages (messages : List Message) : List Message × String :=
  messages.foldl
    (fun acc msg =>
      if msg.role = "system" then (acc.1, msg.content)
      else (acc.1 ++ [{ role := msg.role, content := msg.content }], acc.2))
    ([], "")

end AnthropicAdapter

/-! Spec-side restatements of claim C1, written from the claim's words, to be
compared with the source-derived functions above. -/

/-- Claim wording for Gemini: per message, assistant becomes model, system
becomes user with the literal `"System: "` prefix, and each message is wrapped
as `{role, parts:[{text: content}]}`. -/
def geminiFormatSpec (messages : List Message) : List GeminiMessage :=
  messages.map fun m =>
    if m.role = "assistant" then ⟨"model", [⟨m.content⟩]⟩
    else if m.role = "system" then ⟨"user", [⟨"System: " ++ m.content⟩]⟩
    else ⟨m.role, [⟨m.content⟩]⟩

/-- Claim wording for Anthropic, message part: every system-role message is
removed; the remaining messages keep role and content unchanged. -/
def anthropicMessagesSpec (messages : List Message) : List Message :=
  messages.filter (fun m => m.role != "system")

/-- The content of the last message seen in a scan where each message
overwrites the previous value (default `d` when the list is empty). -/
def lastContentSeen : List Message → String → String
  | [], d => d
  | m :: rest, _ => lastContentSeen rest m.content

/-- Claim wording for Anthropic, system part: the content of the last system
message seen, each system message overwriting the previous (no concatenation);
the empty string when there is none. -/
def anthropicSystemSpec (messages : List Message) : String :=
  lastContentSeen (messages.filter (fun m => m.role == "system")) ""

lemma lastContentSeen_append_singleton (init : List Message) (m : Message)
    (d : String) : lastContentSeen (init ++ [m]) d = m.content := by
  induction init generalizing d with
  | nil => rfl
  | cons a rest ih => simpa [lastContentSeen] using ih a.content

lemma anthropic_foldl_characterization (messages : List Message)
    (acc : List Message) (sys : String) :
    messages.foldl
      (fun acc msg =>
        if msg.role = "system" then (acc.1, msg.content)
        else (acc.1 ++ [{ role := msg.role, content := msg.content }], acc.2))
      (acc, sys)
    = (acc ++ anthropicMessagesSpec messages,
       lastContentSeen (messages.filter (fun m => m.role == "system")) sys) := by
  induction messages generalizing acc sys with
  | nil => simp [anthropicMessagesSpec, lastContentSeen]
  | cons m rest ih =>
    by_cases hm : m.role = "system"
    · simp [anthropicMessagesSpec, List.filter_cons, hm, lastContentSeen, ih]
    · simp [anthropicMessagesSpec, List.filter_cons, hm, lastContentSeen, ih]

/-- C1 --- For every message list, the Gemini adapter's `format_messages` maps
role assistant to model, maps role system to user with the content prefixed
with the literal `"System: "`, and wraps each message as
`{role, parts:[{text: content}]}`; the Anthropic adapter's `format_messages`
removes every system-role message, keeps the remaining messages' role and
content unchanged, and yields as the separate system field the content of the
last system message seen (each system message overwrites the previous; no
concatenation), the empty string when there is none. -/
theorem gemini_anthropic_format_messages_spec (messages : List Message) :
    GeminiAdapter.format_messages messages = geminiFormatSpec messages ∧
    (AnthropicAdapter.format_messages messages).1 = anthropicMessagesSpec messages ∧
    (AnthropicAdapter.format_messages messages).2 = anthropicSystemSpec messages ∧
    (∀ init last, messages.filter (fun m => m.role == "system") = init ++ [last] →
      (AnthropicAdapter.format_messages messages).2 = last.content) := by
  refine ⟨rfl, ?_, ?_, ?_⟩
  · rw [AnthropicAdapter.format_messages, anthropic_foldl_characterization]
    simp
  · rw [AnthropicAdapter.format_messages, anthropic_foldl_characterization,
      anthropicSystemSpec]
  · intro init last hfil
    rw [AnthropicAdapter.format_messages, anthropic_foldl_characterization]
    simp [hfil, lastContentSeen_append_singleton]

/-! ## Canonical (OpenAI-style) response shape produced by the converters -/

/-- The `message` object inside a canonical choice. -/
structure OpenAIMessage where
  role : String
  content : String
deriving Repr, DecidableEq

/-- One element of the canonical `choices` list. -/
structure OpenAIChoice where
  index : Nat
  message : OpenAIMessage
  finish_reason : String
deriving Repr, DecidableEq

/-- The canonical `usage` object. -/
structure OpenAIUsage where
  prompt_tokens : Nat
  completion_tokens : Nat
  total_tokens : Nat
deriving Repr, DecidableEq

/-- The canonical response dictionary the adapters build. -/
structure OpenAIResponse where
  choices : List OpenAIChoice
  usage : OpenAIUsage
deriving Repr, DecidableEq

/-! ## Raw Gemini response shape (gemini_adapter.py lines 74-101)

Keys the converter reads; an `Option` field models a possibly absent key. -/

/-- One element of a Gemini candidate's `parts` list: `part.get("text", "")`. -/
structure GeminiPart where
  text : Option String
deriving Repr, DecidableEq

/-- A Gemini candidate's `content` object: `.get("parts", [])`. -/
structure GeminiContent where
  parts : Option (List GeminiPart)
deriving Repr, DecidableEq

/-- One element of the Gemini `candidates` list: `.get("content", {})`. -/
structure GeminiCandidate where
  content : Option GeminiContent
deriving Repr, DecidableEq

/-- Gemini's `usageMetadata` object, each count read with default 0. -/
structure GeminiUsageMetadata where
  promptTokenCount : Option Nat
  candidatesTokenCount : Option Nat
  totalTokenCount : Option Nat
deriving Repr, DecidableEq

/-- A raw Gemini response: `.get("candidates", [])`, `.get("usageMetadata", {})`. -/
structure GeminiResponse where
  candidates : Option (List GeminiCandidate)
  usageMetadata : Option GeminiUsageMetadata
deriving Repr, DecidableEq

namespace GeminiAdapter

/-- `GeminiAdapter._convert_gemini_to_openai` (gemini_adapter.py lines 74-101).
The `except` branch of the source is unreachable in this typed embedding, so
only the `try` body is modelled. -/
def convert_gemini_to_openai (response : GeminiResponse) : OpenAIResponse :=
  let candidates := response.candidates.getD []
  let content :=
    match candidates with
    | [] => "No response generated"
    | c :: _ =>
      let parts := (c.content.getD { parts := none }).parts.getD []
      match parts with
      | [] => "No content"
      | p :: _ => p.text.getD ""
  { choices := [{ index := 0,
                  message := { role := "assistant", content := content },
                  finish_reason := "stop" }],
    usage :=
      { prompt_tokens := (response.usageMetadata.getD ⟨none, none, none⟩).promptTokenCount.getD 0,
        completion_tokens := (response.usageMetadata.getD ⟨none, none, none⟩).candidatesTokenCount.getD 0,
        total_tokens := (response.usageMetadata.getD ⟨none, none, none⟩).totalTokenCount.getD 0 } }

end GeminiAdapter

/-! ## Raw Anthropic response shape (anthropic_adapter.py lines 76-106) -/

/-- One Anthropic content block: `block.get("type")`, `block.get("text", "")`. -/
structure AnthropicBlock where
  type : Option String
  text : Option String
deriving Repr, DecidableEq

/-- Anthropic's `usage` object: `.get("input_tokens", 0)`, `.get("output_tokens", 0)`. -/
structure AnthropicUsage where
  input_tokens : Option Nat
  output_tokens : Option Nat
deriving Repr, DecidableEq

/-- A raw Anthropic response: `.get("content", [])`, `.get("stop_reason", "stop")`,
`.get("usage", {})`. -/
structure AnthropicResponse where
  content : Option (List AnthropicBlock)
  stop_reason : Option String
  usage : Option AnthropicUsage
deriving Repr, DecidableEq

namespace AnthropicAdapter

/-- The concatenation loop of `_convert_anthropic_to_openai`: `content` starts
as `""` and every block whose `type` equals `"text"` appends `block.get("text", "")`. -/
def concatTextBlocks (blocks : List AnthropicBlock) : String :=
  blocks.foldl
    (fun content block =>
      if block.type = some "text" then content ++ block.text.getD "" else content)
    ""

/-- `AnthropicAdapter._convert_anthropic_to_openai` (anthropic_adapter.py lines
76-106).  The `except` branch of the source is unreachable in this typed
embedding, so only the `try` body is modelled. -/
def convert_anthropic_to_openai (response : AnthropicResponse) : OpenAIResponse :=
  let content0 := concatTextBlocks (response.content.getD [])
  let content := if content0 = "" then "No response generated" else content0
  { choices := [{ index := 0,
                  message := { role := "assistant", content := content },
                  finish_reason := response.stop_reason.getD "stop" }],
    usage :=
      { prompt_tokens := (response.usage.getD ⟨none, none⟩).input_tokens.getD 0,
        completion_tokens := (response.usage.getD ⟨none, none⟩).output_tokens.getD 0,
        total_tokens := (response.usage.getD ⟨none, none⟩).input_tokens.getD 0
          + (response.usage.getD ⟨none, none⟩).output_tokens.getD 0 } }

end AnthropicAdapter

/-! Spec-side restatements of claim C2, written from the claim's words. -/

/-- Claim wording for the Gemini canonical content: the first candidate's first
part's text; `"No response generated"` when there are no candidates;
`"No content"` when a candidate exists but has no parts. -/
def geminiContentSpec (response : GeminiResponse) : String :=
  match response.candidates.getD [] with
  | [] => "No response generated"
  | c :: _ =>
    match (c.content.getD ⟨none⟩).parts.getD [] with
    | [] => "No content"
    | p :: _ => p.text.getD ""

/-- Claim wording for the Anthropic canonical content: the concatenation of
all `type=="text"` blocks' text, or `"No response generated"` when that
concatenation is empty. -/
def anthropicContentSpec (response : AnthropicResponse) : String :=
  let joined :=
    String.join (((response.content.getD []).filter
      (fun b => b.type == some "text")).map (fun b => b.text.getD ""))
  if joined = "" then "No response generated" else joined

lemma foldl_string_append (l : List String) (init : String) :
    l.foldl (fun r s => r ++ s) init = init ++ l.foldl (fun r s => r ++ s) "" := by
  induction l generalizing init with
  | nil => simp
  | cons x xs ih =>
    simp only [List.foldl_cons]
    rw [ih (init ++ x), ih ("" ++ x),
      show ("" : String) ++ x = x from rfl, String.append_assoc]

lemma concatTextBlocks_eq_join (blocks : List AnthropicBlock) (init : String) :
    blocks.foldl
      (fun content block =>
        if block.type = some "text" then content ++ block.text.getD "" else content)
      init
    = init ++ String.join ((blocks.filter
        (fun b => b.type == some "text")).map (fun b => b.text.getD "")) := by
  induction blocks generalizing init with
  | nil => simp [String.join]
  | cons b rest ih =>
    by_cases hb : b.type = some "text"
    · simp only [List.foldl_cons, if_pos hb, List.filter_cons, hb]
      simp only [beq_self_eq_true, if_pos, List.map_cons, String.join, List.foldl_cons]
      rw [ih, foldl_string_append _ ("" ++ b.text.getD ""),
        show ("" : String) ++ b.text.getD "" = b.text.getD "" from rfl,
        String.append_assoc]
      simp [String.join]
    · simp [List.filter_cons, hb, ih]

/-- C2 --- The Gemini response translation returns canonical content equal to
the first candidate's first part's text (default `""`), the literal
`"No response generated"` when there are no candidates, and the literal
`"No content"` when a candidate exists but has no parts, with usage taken from
`usageMetadata.{promptTokenCount, candidatesTokenCount, totalTokenCount}` each
defaulting to 0; the Anthropic response translation returns the concatenation
of all `type=="text"` blocks' text, the literal `"No response generated"` when
that concatenation is empty, `finish_reason` passed through from `stop_reason`
defaulting to `"stop"`, and usage with `prompt_tokens = input_tokens`,
`completion_tokens = output_tokens`, `total_tokens = input_tokens + output_tokens`. -/
theorem convert_responses_spec (g : GeminiResponse) (a : AnthropicResponse) :
    GeminiAdapter.convert_gemini_to_openai g =
      { choices := [⟨0, ⟨"assistant", geminiContentSpec g⟩, "stop"⟩],
        usage := ⟨(g.usageMetadata.getD ⟨none, none, none⟩).promptTokenCount.getD 0,
                  (g.usageMetadata.getD ⟨none, none, none⟩).candidatesTokenCount.getD 0,
                  (g.usageMetadata.getD ⟨none, none, none⟩).totalTokenCount.getD 0⟩ } ∧
    AnthropicAdapter.convert_anthropic_to_openai a =
      { choices := [⟨0, ⟨"assistant", anthropicContentSpec a⟩,
                    a.stop_reason.getD "stop"⟩],
        usage := ⟨(a.usage.getD ⟨none, none⟩).input_tokens.getD 0,
                  (a.usage.getD ⟨none, none⟩).output_tokens.getD 0,
                  (a.usage.getD ⟨none, none⟩).input_tokens.getD 0
                    + (a.usage.getD ⟨none, none⟩).output_tokens.getD 0⟩ } := by
  constructor
  · rfl
  · rw [AnthropicAdapter.convert_anthropic_to_openai, AnthropicAdapter.concatTextBlocks,
      concatTextBlocks_eq_join]
    simp [anthropicContentSpec]

/-! ## Response normalizer (src/app/response_utils.py lines 96-148)

`extract_content_from_llm_response` receives an arbitrary response dictionary
and probes five shapes.  The `"content"` key may hold an Anthropic block list,
a plain string, or anything else, so it is modelled as a small sum type. -/

/-- The `message` object of an OpenAI-style choice: `.get("content")`. -/
structure RawChoiceMessage where
  content : Option String
deriving Repr, DecidableEq

/-- One OpenAI-style choice: `.get("message", {})`. -/
structure RawChoice where
  message : Option RawChoiceMessage
deriving Repr, DecidableEq

/-- The possible values of the top-level `"content"` key: an Anthropic content
block list, a direct string, or some other value (any other Python type, which
fails both the `isinstance(…, list)` and `isinstance(…, str)` checks). -/
inductive ContentField where
  | blocks (bs : List AnthropicBlock)
  | str (s : String)
  | other
deriving Repr, DecidableEq

/-- A raw response as `extract_content_from_llm_response` sees it: each key
read with `.get`, possibly absent. -/
structure LLMResponse where
  choices : Option (List RawChoice)
  content : Option ContentField
  completion : Option String
  candidates : Option (List GeminiCandidate)
deriving Repr, DecidableEq

/-- Models Python's `str(response)`: the final debugging fallback renders the
whole raw response as a string. -/
def strRender (r : LLMResponse) : String := reprStr r

/-!
`extract_content_from_llm_response` (response_utils.py lines 96-148) is
translated in continuation style: each early `return` of the Python source
becomes the success branch, and every fallthrough continues with the next
probe (`extractStep2` … `extractStep5`, named after the order of the source's
blocks), ending at the `str(response)` fallback.  The enclosing `try/except`
is unreachable in this typed embedding.
-/

/-- Fifth block: direct `content` key holding a string, else the fallback. -/
def extractStep5 (r : LLMResponse) : String :=
  match r.content with
  | some (.str s) => s
  | _ => strRender r

/-- Fourth block: Gemini format, `candidates[0].content.parts[0].text`. -/
def extractStep4 (r : LLMResponse) : String :=
  match r.candidates.getD [] with
  | c :: _ =>
    (match (c.content.getD ⟨none⟩).parts.getD [] with
     | p :: _ =>
       (match p.text with
        | some t => if t ≠ "" then t else extractStep5 r
        | none => extractStep5 r)
     | [] => extractStep5 r)
  | [] => extractStep5 r

/-- Third block: Anthropic legacy `completion` field. -/
def extractStep3 (r : LLMResponse) : String :=
  match r.completion with
  | some s => if s ≠ "" then s else extractStep4 r
  | none => extractStep4 r

/-- Second block: Anthropic new-API content-block list; the loop collecting
the text of every `"text"`-typed block becomes filter-and-map. -/
def extractStep2 (r : LLMResponse) : String :=
  match r.content with
  | some (.blocks bs) =>
    if bs ≠ [] then
      let text_content :=
        (bs.filter (fun b => b.type == some "text")).map (fun b => b.text.getD "")
      if text_content ≠ [] then String.join text_content else extractStep3 r
    else extractStep3 r
  | _ => extractStep3 r

/-- First block: OpenAI / Groq / Mistral / OpenRouter `choices[0].message.content`. -/
def extract_content_from_llm_response (r : LLMResponse) : String :=
  match r.choices.getD [] with
  | ch :: _ =>
    (match (ch.message.getD ⟨none⟩).content with
     | some content => if content ≠ "" then content else extractStep2 r
     | none => extractStep2 r)
  | [] => extractStep2 r

/-! Spec-side restatement of claim C3: five named shape attempts tried in
order, with the string rendering of the whole response as last resort. -/

/-- Claim shape (1): OpenAI-style `choices[0].message.content` (a non-empty
string, since Python truthiness rejects `""`). -/
def tryOpenAIShape (r : LLMResponse) : Option String :=
  match (r.choices.getD []).head? with
  | some ch =>
    (match (ch.message.getD ⟨none⟩).content with
     | some s => if s = "" then none else some s
     | none => none)
  | none => none

/-- Claim shape (2): Anthropic-style content-block list, concatenating the
`type=="text"` blocks (succeeds only when the list and the collected texts are
non-empty). -/
def tryAnthropicBlocksShape (r : LLMResponse) : Option String :=
  match r.content with
  | some (.blocks bs) =>
    if bs = [] then none
    else
      let texts := (bs.filter (fun b => b.type == some "text")).map (fun b => b.text.getD "")
      if texts = [] then none else some (String.join texts)
  | _ => none

/-- Claim shape (3): the legacy Anthropic `completion` field (non-empty). -/
def tryCompletionShape (r : LLMResponse) : Option String :=
  match r.completion with
  | some s => if s = "" then none else some s
  | none => none

/-- Claim shape (4): Gemini-style `candidates[0].content.parts[0].text`
(non-empty). -/
def tryGeminiShape (r : LLMResponse) : Option String :=
  match (r.candidates.getD []).head? with
  | some c =>
    (match ((c.content.getD ⟨none⟩).parts.getD []).head? with
     | some p =>
       (match p.text with
        | some t => if t = "" then none else some t
        | none => none)
     | none => none)
  | none => none

/-- Claim shape (5): a direct top-level `content` string (any string). -/
def tryDirectContentShape (r : LLMResponse) : Option String :=
  match r.content with
  | some (.str s) => some s
  | _ => none

/-- Claim wording: attempt the five shapes in order and fall back to a string
rendering of the whole raw response when every path fails. -/
def extractContentSpec (r : LLMResponse) : String :=
  (((((tryOpenAIShape r).orElse fun _ => tryAnthropicBlocksShape r).orElse
      fun _ => tryCompletionShape r).orElse fun _ => tryGeminiShape r).orElse
        fun _ => tryDirectContentShape r).getD (strRender r)

/-- C3 --- `extract_content_from_llm_response` is total (it is a Lean function
into `String`, so it returns a text value on every input and never raises) and
equals the ordered five-shape attempt sequence of the claim: OpenAI
`choices[0].message.content`, Anthropic text-block concatenation, legacy
Anthropic `completion`, Gemini `candidates[0].content.parts[0].text`, direct
top-level `content` string, with a string rendering of the whole response when
every path fails. -/
lemma extract_step1_eq (r : LLMResponse) :
    extract_content_from_llm_response r =
      match tryOpenAIShape r with
      | some s => s
      | none => extractStep2 r := by
  unfold extract_content_from_llm_response tryOpenAIShape
  rcases h : r.choices.getD [] with _ | ⟨ch, chs⟩ <;> simp
  rcases (ch.message.getD ⟨none⟩).content with _ | s
  · rfl
  · by_cases hs : s = "" <;> simp [hs]

lemma extract_step2_eq (r : LLMResponse) :
    extractStep2 r =
      match tryAnthropicBlocksShape r with
      | some s => s
      | none => extractStep3 r := by
  unfold extractStep2 tryAnthropicBlocksShape
  rcases r.content with _ | cf
  · rfl
  · cases cf with
    | str s => rfl
    | other => rfl
    | blocks bs =>
      dsimp only
      by_cases hbs : bs = []
      · rw [if_neg (not_not_intro hbs), if_pos hbs]
      · rw [if_pos hbs, if_neg hbs]
        by_cases htx :
            (bs.filter (fun b => b.type == some "text")).map (fun b => b.text.getD "") = []
        · rw [if_neg (not_not_intro htx), if_pos htx]
        · rw [if_pos htx, if_neg htx]

lemma extract_step3_eq (r : LLMResponse) :
    extractStep3 r =
      match tryCompletionShape r with
      | some s => s
      | none => extractStep4 r := by
  unfold extractStep3 tryCompletionShape
  rcases r.completion with _ | s
  · rfl
  · by_cases hs : s = "" <;> simp [hs]

lemma extract_step4_eq (r : LLMResponse) :
    extractStep4 r =
      match tryGeminiShape r with
      | some s => s
      | none => extractStep5 r := by
  unfold extractStep4 tryGeminiShape
  rcases h : r.candidates.getD [] with _ | ⟨c, cs⟩ <;> simp
  rcases (c.content.getD ⟨none⟩).parts.getD [] with _ | ⟨p, ps⟩ <;> simp
  rcases p.text with _ | t
  · rfl
  · by_cases ht : t = "" <;> simp [ht]

lemma extract_step5_eq (r : LLMResponse) :
    extractStep5 r =
      match tryDirectContentShape r with
      | some s => s
      | none => strRender r := by
  unfold extractStep5 tryDirectContentShape
  rcases r.content with _ | ⟨bs | s⟩ | _ <;> rfl

theorem extract_content_total_and_ordered (r : LLMResponse) :
    extract_content_from_llm_response r = extractContentSpec r := by
  rw [extract_step1_eq, extractContentSpec]
  cases h1 : tryOpenAIShape r <;> simp only [Option.orElse, h1]
  · rw [extract_step2_eq]
    cases h2 : tryAnthropicBlocksShape r <;> simp only [Option.orElse, h2]
    · rw [extract_step3_eq]
      cases h3 : tryCompletionShape r <;> simp only [Option.orElse, h3]
      · rw [extract_step4_eq]
        cases h4 : tryGeminiShape r <;> simp only [Option.orElse, h4]
        · rw [extract_step5_eq]
          cases h5 : tryDirectContentShape r <;> simp [Option.orElse, h5]
        · simp
      · simp
    · simp
  · simp

/-! ## Token counting (src/app/response_utils.py)

Python's `len(text.split())` counts the maximal runs of non-whitespace
characters.  `wcAux` scans the characters with a flag recording whether the
scan is currently inside a word. -/

/-- Count of maximal non-whitespace runs in a character list, starting inside
a word iff `inWord`. -/
def wcAux : List Char → Bool → Nat
  | [], _ => 0
  | c :: cs, inWord =>
    if c.isWhitespace then wcAux cs false
    else (if inWord then 0 else 1) + wcAux cs true

/-- `len(text.split())`: the number of whitespace-separated words of `s`. -/
def wordCount (s : String) : Nat := wcAux s.data false

/-- Python's `" ".join(parts)`. -/
def joinWithSpace : List String → String
  | [] => ""
  | [s] => s
  | s :: t :: ts => s ++ " " ++ joinWithSpace (t :: ts)

lemma wcAux_append_space (a b : List Char) (inWord : Bool) :
    wcAux (a ++ ' ' :: b) inWord = wcAux a inWord + wcAux b false := by
  induction a generalizing inWord with
  | nil => simp [wcAux]
  | cons c cs ih =>
    by_cases hc : c.isWhitespace
    · simp [wcAux, hc, ih]
    · simp [wcAux, hc, ih, Nat.add_assoc]

lemma wordCount_append_space (s t : String) :
    wordCount (s ++ " " ++ t) = wordCount s + wordCount t := by
  unfold wordCount
  rw [String.data_append, String.data_append,
    show (" " : String).data = [' '] from rfl, List.append_assoc]
  exact wcAux_append_space _ _ _

lemma wordCount_joinWithSpace (l : List String) :
    wordCount (joinWithSpace l) = (l.map wordCount).sum := by
  induction l with
  | nil => rfl
  | cons s rest ih =>
    cases rest with
    | nil => simp [joinWithSpace]
    | cons t ts =>
      rw [joinWithSpace, wordCount_append_space, ih]
      simp

/-! ## OpenAI-compatible envelope (src/app/models.py, src/app/response_utils.py) -/

/-- `ChatUsage` (models.py lines 54-57); Python ints become `ℤ`. -/
structure ChatUsage where
  prompt_tokens : ℤ
  completion_tokens : ℤ
  total_tokens : ℤ
deriving Repr, DecidableEq

/-- `ChatResponse` (models.py lines 59-65); `created` is the Unix timestamp
`int(time.time())`, passed in as `now`. -/
structure ChatResponse where
  id : String
  object : String
  created : Nat
  model : String
  choices : List OpenAIChoice
  usage : ChatUsage
deriving Repr, DecidableEq

/-- `AgentResponse` (models.py lines 92-95).  The optional `tool_calls` field
is not read by any function modelled here and is omitted. -/
structure AgentResponse where
  content : String
  tools_used : List String
deriving Repr, DecidableEq

/-- `calculate_usage_stats` (response_utils.py lines 150-162).  The Python
float literal `1.3` is modelled as the exact rational `13/10`, and `int(...)`
on the (≥ 1) results as the floor. -/
def calculate_usage_stats (request_messages : List Message)
    (response_content : String) : ChatUsage :=
  let prompt_text := joinWithSpace (request_messages.map (fun msg => msg.content))
  let prompt_tokens : ℚ := max 1 ((wordCount prompt_text : ℚ) * (13 / 10))
  let completion_tokens : ℚ := max 1 ((wordCount response_content : ℚ) * (13 / 10))
  { prompt_tokens := ⌊prompt_tokens⌋,
    completion_tokens := ⌊completion_tokens⌋,
    total_tokens := ⌊prompt_tokens + completion_tokens⌋ }

/-- `convert_to_openai_format` (response_utils.py lines 6-38): the assembler.
Its token counts are the plain word counts, with no scaling and no minimum. -/
def convert_to_openai_format (session_id : String) (model : String)
    (agent_response : AgentResponse) (request_messages : List Message)
    (now : Nat) : ChatResponse :=
  let prompt_tokens := (request_messages.map (fun msg => wordCount msg.content)).sum
  let completion_tokens := wordCount agent_response.content
  { id := session_id,
    object := "chat.completion",
    created := now,
    model := model,
    choices := [{ index := 0,
                  message := { role := "assistant", content := agent_response.content },
                  finish_reason := "stop" }],
    usage := { prompt_tokens := (prompt_tokens : ℤ),
               completion_tokens := (completion_tokens : ℤ),
               total_tokens := ((prompt_tokens + completion_tokens : Nat) : ℤ) } }

/-- C10 --- For every request message list and response content, including the
empty list and the empty string, `calculate_usage_stats` returns
`prompt_tokens ≥ 1` and `completion_tokens ≥ 1` (the minimum-1 floor applies
even to empty input), its `total_tokens` equals
`⌊max 1 (1.3·p) + max 1 (1.3·c)⌋` for the word counts `p` (of the
space-joined message contents) and `c` (of the response content), and
`total_tokens` is either exactly `prompt_tokens + completion_tokens` or
exceeds that sum by exactly 1. -/
theorem calculate_usage_stats_bounds (request_messages : List Message)
    (response_content : String) :
    1 ≤ (calculate_usage_stats request_messages response_content).prompt_tokens ∧
    1 ≤ (calculate_usage_stats request_messages response_content).completion_tokens ∧
    (calculate_usage_stats request_messages response_content).total_tokens =
      ⌊max 1 ((wordCount (joinWithSpace (request_messages.map (fun msg => msg.content))) : ℚ)
          * (13 / 10))
        + max 1 ((wordCount response_content : ℚ) * (13 / 10))⌋ ∧
    ((calculate_usage_stats request_messages response_content).total_tokens =
        (calculate_usage_stats request_messages response_content).prompt_tokens
          + (calculate_usage_stats request_messages response_content).completion_tokens ∨
     (calculate_usage_stats request_messages response_content).total_tokens =
        (calculate_usage_stats request_messages response_content).prompt_tokens
          + (calculate_usage_stats request_messages response_content).completion_tokens + 1) := by
  dsimp only [calculate_usage_stats]
  set p : ℚ := (wordCount (joinWithSpace (request_messages.map (fun msg => msg.content))) : ℚ)
  set c : ℚ := (wordCount response_content : ℚ)
  set pt : ℚ := max 1 (p * (13 / 10)) with hpt
  set ct : ℚ := max 1 (c * (13 / 10)) with hct
  have hpt1 : (1 : ℚ) ≤ pt := le_max_left _ _
  have hct1 : (1 : ℚ) ≤ ct := le_max_left _ _
  refine ⟨?_, ?_, rfl, ?_⟩
  · exact Int.le_floor.mpr (by push_cast; exact hpt1)
  · exact Int.le_floor.mpr (by push_cast; exact hct1)
  · have h1 : ⌊pt⌋ + ⌊ct⌋ ≤ ⌊pt + ct⌋ := by
      apply Int.le_floor.mpr
      push_cast
      exact add_le_add (Int.floor_le pt) (Int.floor_le ct)
    have h2 : ⌊pt + ct⌋ < ⌊pt⌋ + ⌊ct⌋ + 2 := by
      apply Int.floor_lt.mpr
      push_cast
      linarith [Int.lt_floor_add_one pt, Int.lt_floor_add_one ct]
    omega

/-- C7, counterexample --- At the concrete request containing the single
10-word user message below, the assembler `convert_to_openai_format` reports
`prompt_tokens = 10` (the plain word count), while the §4.2 approximation of
`calculate_usage_stats` yields `⌊10 · 1.3⌋ = 13`: the assembler does NOT
compute usage by the 1.3-scaled, minimum-1 approximation the claim states. -/
theorem convert_usage_not_scaled :
    (convert_to_openai_format "sid" "m" { content := "ok", tools_used := [] }
        [{ role := "user", content := "a b c d e f g h i j" }] 0).usage.prompt_tokens = 10 ∧
    (calculate_usage_stats [{ role := "user", content := "a b c d e f g h i j" }]
        "ok").prompt_tokens = 13 ∧
    (10 : ℤ) ≠ 13 := by
  refine ⟨by decide, ?_, by decide⟩
  show ⌊max 1 ((wordCount (joinWithSpace ["a b c d e f g h i j"]) : ℚ) * (13 / 10))⌋ = 13
  norm_num [joinWithSpace, show wordCount "a b c d e f g h i j" = 10 from by decide]

/-- C7, amended --- For every session identifier, model name, agent response,
request message list and timestamp, the assembler produces the canonical
envelope with `object="chat.completion"`, the Unix timestamp, a single choice
at index 0 with `finish_reason="stop"` carrying the agent's content, and usage
equal to the PLAIN word counts (no 1.3 scaling, no minimum 1): `prompt_tokens`
is the word count of the space-joined request message contents,
`completion_tokens` the word count of the agent's final content, and
`total_tokens` their sum. -/
theorem convert_to_openai_format_spec (session_id model : String)
    (agent_response : AgentResponse) (request_messages : List Message) (now : Nat) :
    convert_to_openai_format session_id model agent_response request_messages now =
      { id := session_id,
        object := "chat.completion",
        created := now,
        model := model,
        choices := [⟨0, ⟨"assistant", agent_response.content⟩, "stop"⟩],
        usage :=
          ⟨(wordCount (joinWithSpace (request_messages.map (fun msg => msg.content))) : ℤ),
           (wordCount agent_response.content : ℤ),
           (wordCount (joinWithSpace (request_messages.map (fun msg => msg.content))) : ℤ)
             + (wordCount agent_response.content : ℤ)⟩ } := by
  unfold convert_to_openai_format
  rw [wordCount_joinWithSpace, List.map_map]
  simp [Function.comp_def]

/-! ## Agent loop (src/app/agent.py) -/

/-- `AgentExecutor(max_iterations=5)` (agent.py line 57): the iteration cap the
source configures on the reasoning loop. -/
def max_iterations : Nat := 5

/-- What the underlying model emits in one reasoning round: either a tool call
(name and arguments) or a final non-tool answer. -/
inductive AgentDecision where
  | toolCall (name : String) (args : String)
  | finalAnswer (text : String)
deriving Repr, DecidableEq

/-- Outcome of a loop run: final output text, number of reasoning rounds used,
tool names invoked in order, and whether the iteration cap was hit. -/
structure LoopOutcome where
  output : String
  rounds : Nat
  tools : List String
  capped : Bool
deriving Repr, DecidableEq

/-- Modelled from the spec: the reasoning loop of the langchain
`AgentExecutor` that `KubeSageAgent._create_agent` constructs is library code
absent from src/ (src only configures it with `max_iterations=5`).  Per spec
§4.4 the loop repeatedly asks the model for a decision over the scratchpad of
(tool, observation) pairs: a final answer finishes the run, a tool call
executes the tool synchronously, appends the observation, and re-enters
reasoning; when the fixed maximum of reasoning rounds is exhausted without a
final answer, the run ends in the `IterationCapped` state with a degraded
stopped-response instead of looping forever. -/
def runLoopAux (decide : List (String × String) → AgentDecision)
    (execTool : String → String → String) :
    Nat → List (String × String) → LoopOutcome
  | 0, _ =>
    { output := "Agent stopped due to iteration limit or time limit.",
      rounds := 0, tools := [], capped := true }
  | fuel + 1, scratchpad =>
    match decide scratchpad with
    | .finalAnswer t => { output := t, rounds := 1, tools := [], capped := false }
    | .toolCall name args =>
      let obs := execTool name args
      let rest := runLoopAux decide execTool fuel (scratchpad ++ [(name, obs)])
      { rest with rounds := rest.rounds + 1, tools := name :: rest.tools }

/-- Modelled from the spec: one agent run starts in `Reasoning` with an empty
scratchpad and `max_iterations` rounds of fuel. -/
def run_agent_loop (decide : List (String × String) → AgentDecision)
    (execTool : String → String → String) : LoopOutcome :=
  runLoopAux decide execTool max_iterations []

lemma runLoopAux_always_tool (decide : List (String × String) → AgentDecision)
    (execTool : String → String → String)
    (h : ∀ pad, ∃ n a, decide pad = .toolCall n a) :
    ∀ fuel pad, (runLoopAux decide execTool fuel pad).rounds = fuel ∧
      (runLoopAux decide execTool fuel pad).capped = true ∧
      (runLoopAux decide execTool fuel pad).output =
        "Agent stopped due to iteration limit or time limit." := by
  intro fuel
  induction fuel with
  | zero => intro pad; exact ⟨rfl, rfl, rfl⟩
  | succ n ih =>
    intro pad
    obtain ⟨nm, a, hd⟩ := h pad
    have := ih (pad ++ [(nm, execTool nm a)])
    simp [runLoopAux, hd, this.1, this.2.1, this.2.2]

/-- C4 --- For every model oracle that always requests another tool call and
never emits a final answer, the agent loop terminates (it is a total Lean
function) after exactly 5 reasoning rounds — the `max_iterations=5` the source
passes to the executor — in the capped state, returning the degraded stopped
response rather than looping forever. -/
theorem agent_loop_iteration_cap (decide : List (String × String) → AgentDecision)
    (execTool : String → String → String)
    (h : ∀ pad, ∃ n a, decide pad = .toolCall n a) :
    (run_agent_loop decide execTool).rounds = 5 ∧
    (run_agent_loop decide execTool).capped = true ∧
    (run_agent_loop decide execTool).output =
      "Agent stopped due to iteration limit or time limit." := by
  have := runLoopAux_always_tool decide execTool h max_iterations []
  exact this

/-- Witness for C4 at the concrete oracle that always calls tool `"t"`. -/
theorem agent_loop_iteration_cap_witness :
    (run_agent_loop (fun _ => .toolCall "t" "") (fun _ _ => "ok")).rounds = 5 ∧
    (run_agent_loop (fun _ => .toolCall "t" "") (fun _ _ => "ok")).capped = true ∧
    (run_agent_loop (fun _ => .toolCall "t" "") (fun _ _ => "ok")).output =
      "Agent stopped due to iteration limit or time limit." :=
  agent_loop_iteration_cap (fun _ => .toolCall "t" "") (fun _ _ => "ok")
    (fun _ => ⟨"t", "", rfl⟩)

/-! `KubeSageAgent.process_messages` (agent.py lines 60-98).  The call
`self.agent_executor.ainvoke({...})` is represented by an oracle from
(latest user input, chat history) to `Except`: an `.error` value is an
exception raised anywhere during the loop (model call failure, tool
exception, timeout). -/

/-- A structured chat-history entry (`SystemMessage` / `AIMessage` /
`HumanMessage` of agent.py lines 72-77). -/
inductive HistoryMessage where
  | system (content : String)
  | ai (content : String)
  | human (content : String)
deriving Repr, DecidableEq

/-- The executor's result dictionary: `result.get("output", ...)` and
`result["intermediate_steps"]` (each step contributing its tool name). -/
structure ExecResult where
  output : Option String
  intermediate_steps : List String
deriving Repr, DecidableEq

/-- `KubeSageAgent._extract_tools_used` (agent.py lines 100-111):
`list(set(tools_used))` — deduplication, modelled keeping first occurrences. -/
def extract_tools_used (result : ExecResult) : List String :=
  result.intermediate_steps.eraseDups

/-- The chat-history construction of agent.py lines 70-77: all but the last
message, keeping only the three known roles. -/
def build_chat_history (messages : List Message) : List HistoryMessage :=
  messages.dropLast.filterMap fun msg =>
    if msg.role = "system" then some (.system msg.content)
    else if msg.role = "assistant" then some (.ai msg.content)
    else if msg.role = "user" then some (.human msg.content)
    else none

/-- The error content built by the `except` branch of `process_messages`
(agent.py line 94). -/
def agent_error_content (e : String) : String :=
  "I encountered an error while processing your request. This can sometimes be caused by an issue with the LLM provider's API or content filters. Details: " ++ e

namespace KubeSageAgent

/-- `KubeSageAgent.process_messages` (agent.py lines 60-98). -/
def process_messages
    (exec : String → List HistoryMessage → Except String ExecResult)
    (messages : List Message) : AgentResponse :=
  if messages = [] then
    { content := "I received an empty message list.", tools_used := [] }
  else
    let user_input := (messages.getLastD { role := "", content := "" }).content
    let chat_history := build_chat_history messages
    match exec user_input chat_history with
    | .ok result =>
      { content := result.output.getD "I could not generate a response.",
        tools_used := extract_tools_used result }
    | .error e =>
      { content := agent_error_content e, tools_used := [] }

end KubeSageAgent

/-- C5 --- For every message list and every exception raised during the agent
loop (the oracle returning `.error e` covers model call failures, tool
exceptions and timeouts), `process_messages` catches the exception and returns
an `AgentResponse` whose content explains that an error occurred and whose
`tools_used` list is empty; being a total Lean function into `AgentResponse`,
it never lets an exception escape to the caller. -/
theorem process_messages_absorbs_exceptions
    (exec : String → List HistoryMessage → Except String ExecResult)
    (messages : List Message) (e : String)
    (hne : messages ≠ [])
    (herr : exec (messages.getLastD { role := "", content := "" }).content
        (build_chat_history messages) = .error e) :
    KubeSageAgent.process_messages exec messages =
      { content := agent_error_content e, tools_used := [] } := by
  unfold KubeSageAgent.process_messages
  rw [if_neg hne]
  simp only [herr]

/-- Witness for C5 at a concrete one-message conversation and an oracle that
always raises. -/
theorem process_messages_absorbs_exceptions_witness :
    KubeSageAgent.process_messages (fun _ _ => .error "boom")
        [{ role := "user", content := "hi" }] =
      { content := agent_error_content "boom", tools_used := [] } :=
  process_messages_absorbs_exceptions (fun _ _ => .error "boom")
    [{ role := "user", content := "hi" }] "boom" (by simp) rfl

/-! ## Kubernetes delete tools (src/app/k8s_tools.py)

Each tool's interaction with the cluster is made explicit: `ApiCall` names the
kubernetes-client delete method a tool may invoke, an oracle
`api : ApiCall → Except ApiException Unit` decides its outcome, and every tool
returns its result together with the trace of API calls it performed. -/

/-- The destructive kubernetes-client methods the delete tools invoke. -/
inductive ApiCall where
  | delete_namespaced_pod (name namespace_ : String)
  | delete_namespace (name : String)
  | delete_namespaced_deployment (name namespace_ : String)
  | delete_namespaced_service (name namespace_ : String)
  | delete_namespaced_secret (name namespace_ : String)
  | delete_namespaced_ingress (name namespace_ : String)
  | delete_namespaced_persistent_volume_claim (name namespace_ : String)
  | delete_namespaced_horizontal_pod_autoscaler (name namespace_ : String)
deriving Repr, DecidableEq

/-- A kubernetes `ApiException`: its `.status` code and its `str(e)` rendering. -/
structure ApiException where
  status : Nat
  text : String
deriving Repr, DecidableEq

/-- The cluster oracle: what each API call does when actually performed. -/
def K8sApi : Type := ApiCall → Except ApiException Unit

/-- The dictionary results of `delete_secret` / `delete_ingress`; absent keys
are `none`. -/
structure DictResult where
  status : String
  act : String
  name : Option String
  ns : Option String
  code : Option Nat
  msg : Option String
deriving Repr, DecidableEq

/-- `del_pod` (k8s_tools.py lines 60-72), with its API-call trace. -/
def del_pod (api : K8sApi) (name : String) (namespace_ : String)
    (confirm : Bool) : String × List ApiCall :=
  if ¬ confirm then
    ("Please confirm deletion of pod '" ++ name ++ "' in namespace '"
      ++ namespace_ ++ "' by setting 'confirm=true'.", [])
  else
    match api (.delete_namespaced_pod name namespace_) with
    | .ok _ =>
      ("Pod '" ++ name ++ "' deleted from namespace '" ++ namespace_ ++ "'.",
        [.delete_namespaced_pod name namespace_])
    | .error e =>
      (if e.status = 404 then
        "Pod '" ++ name ++ "' not found in namespace '" ++ namespace_ ++ "'."
       else "Error deleting pod '" ++ name ++ "': " ++ e.text,
        [.delete_namespaced_pod name namespace_])

/-- `del_ns` (k8s_tools.py lines 89-99), with its API-call trace. -/
def del_ns (api : K8sApi) (name : String) (confirm : Bool) :
    String × List ApiCall :=
  if ¬ confirm then
    ("Please confirm deletion of namespace '" ++ name
      ++ "' by setting 'confirm=true'.", [])
  else
    match api (.delete_namespace name) with
    | .ok _ => ("Namespace '" ++ name ++ "' deleted.", [.delete_namespace name])
    | .error e =>
      (if e.status = 404 then "Namespace '" ++ name ++ "' not found."
       else "Error deleting namespace '" ++ name ++ "': " ++ e.text,
        [.delete_namespace name])

/-- `delete_deploy` (k8s_tools.py lines 130-140), with its API-call trace. -/
def delete_deploy (api : K8sApi) (name : String) (ns : String)
    (confirm : Bool) : String × List ApiCall :=
  if ¬ confirm then
    ("Confirm deletion of deployment '" ++ name ++ "' in namespace '" ++ ns
      ++ "' by setting confirm=True.", [])
  else
    match api (.delete_namespaced_deployment name ns) with
    | .ok _ =>
      ("Deployment '" ++ name ++ "' deleted from namespace '" ++ ns ++ "'.",
        [.delete_namespaced_deployment name ns])
    | .error e =>
      (if e.status = 404 then
        "Deployment '" ++ name ++ "' not found in namespace '" ++ ns ++ "'."
       else "Error deleting deployment '" ++ name ++ "': " ++ e.text,
        [.delete_namespaced_deployment name ns])

/-- `delete_svc` (k8s_tools.py lines 160-170), with its API-call trace. -/
def delete_svc (api : K8sApi) (name : String) (ns : String) (cfm : Bool) :
    String × List ApiCall :=
  if ¬ cfm then
    ("Confirm deletion of service '" ++ name ++ "' in ns '" ++ ns
      ++ "' by setting cfm=True.", [])
  else
    match api (.delete_namespaced_service name ns) with
    | .ok _ =>
      ("Service '" ++ name ++ "' deleted from ns '" ++ ns ++ "'.",
        [.delete_namespaced_service name ns])
    | .error e =>
      (if e.status = 404 then
        "Service '" ++ name ++ "' not found in ns '" ++ ns ++ "'."
       else "Error deleting service '" ++ name ++ "': " ++ e.text,
        [.delete_namespaced_service name ns])

/-- `delete_secret` (k8s_tools.py lines 387-411), with its API-call trace. -/
def delete_secret (api : K8sApi) (name : String) (ns : String)
    (confirm : Bool) : DictResult × List ApiCall :=
  if ¬ confirm then
    ({ status := "confirm_required", act := "delete_secret", name := none,
       ns := none, code := none,
       msg := some ("Confirm deletion of secret '" ++ name ++ "' in namespace '"
         ++ ns ++ "'") }, [])
  else
    match api (.delete_namespaced_secret name ns) with
    | .ok _ =>
      ({ status := "success", act := "delete_secret", name := some name,
         ns := some ns, code := none, msg := none },
        [.delete_namespaced_secret name ns])
    | .error e =>
      ({ status := "error", act := "delete_secret", name := some name,
         ns := some ns, code := some e.status, msg := some e.text },
        [.delete_namespaced_secret name ns])

/-- `delete_ingress` (k8s_tools.py lines 480-508), with its API-call trace.
Note its confirmation status string is `"confirm_needed"`, not
`"confirm_required"`. -/
def delete_ingress (api : K8sApi) (name : String) (ns : String)
    (confirm : Bool) : DictResult × List ApiCall :=
  if ¬ confirm then
    ({ status := "confirm_needed", act := "delete_ingress", name := some name,
       ns := some ns, code := none,
       msg := some ("Confirm deletion by saying: 'yes, delete ingress "
         ++ name ++ "'") }, [])
  else
    match api (.delete_namespaced_ingress name ns) with
    | .ok _ =>
      ({ status := "success", act := "delete_ingress", name := some name,
         ns := some ns, code := none, msg := none },
        [.delete_namespaced_ingress name ns])
    | .error e =>
      ({ status := "error", act := "delete_ingress", name := some name,
         ns := some ns, code := some e.status, msg := some e.text },
        [.delete_namespaced_ingress name ns])

/-- `del_pvc` (k8s_tools.py lines 600-610), with its API-call trace. -/
def del_pvc (api : K8sApi) (n : String) (ns : String) (c : Bool) :
    String × List ApiCall :=
  if ¬ c then
    ("Confirm to delete PVC '" ++ n ++ "' in ns '" ++ ns
      ++ "'. Say: yes, delete pvc " ++ n ++ ".", [])
  else
    match api (.delete_namespaced_persistent_volume_claim n ns) with
    | .ok _ =>
      ("PVC '" ++ n ++ "' deleted from ns '" ++ ns ++ "'.",
        [.delete_namespaced_persistent_volume_claim n ns])
    | .error e =>
      (if e.status = 404 then "PVC '" ++ n ++ "' not found in ns '" ++ ns ++ "'."
       else "Err deleting PVC '" ++ n ++ "': " ++ e.text,
        [.delete_namespaced_persistent_volume_claim n ns])

/-- `delete_hpa` (k8s_tools.py lines 665-675), with its API-call trace. -/
def delete_hpa (api : K8sApi) (name : String) (ns : String) (confirm : Bool) :
    String × List ApiCall :=
  if ¬ confirm then
    ("Confirmation required to delete HPA '" ++ name ++ "' in namespace '" ++ ns
      ++ "'. Please confirm by saying 'yes, delete hpa " ++ name ++ "'.", [])
  else
    match api (.delete_namespaced_horizontal_pod_autoscaler name ns) with
    | .ok _ =>
      ("HPA '" ++ name ++ "' deleted successfully from namespace '" ++ ns ++ "'.",
        [.delete_namespaced_horizontal_pod_autoscaler name ns])
    | .error e =>
      (if e.status = 404 then
        "HPA '" ++ name ++ "' not found in namespace '" ++ ns ++ "'."
       else "Error deleting HPA '" ++ name ++ "': " ++ e.text,
        [.delete_namespaced_horizontal_pod_autoscaler name ns])

/-- C6 --- For every cluster oracle and every argument set, each of the eight
delete-class tools invoked without its confirmation flag performs no call to
the cluster API (empty trace) and returns its confirmation-request result
(the two dictionary tools with status `"confirm_required"` resp.
`"confirm_needed"`, the six textual tools with their confirmation prompt);
invoked with the flag set, each performs exactly its destructive cluster
call. -/
theorem delete_tools_confirmation_gating (api : K8sApi) (name ns : String) :
    ((del_pod api name ns false).2 = [] ∧
      (del_pod api name ns false).1 =
        "Please confirm deletion of pod '" ++ name ++ "' in namespace '" ++ ns
          ++ "' by setting 'confirm=true'." ∧
      (del_pod api name ns true).2 = [.delete_namespaced_pod name ns]) ∧
    ((del_ns api name false).2 = [] ∧
      (del_ns api name false).1 =
        "Please confirm deletion of namespace '" ++ name
          ++ "' by setting 'confirm=true'." ∧
      (del_ns api name true).2 = [.delete_namespace name]) ∧
    ((delete_deploy api name ns false).2 = [] ∧
      (delete_deploy api name ns false).1 =
        "Confirm deletion of deployment '" ++ name ++ "' in namespace '" ++ ns
          ++ "' by setting confirm=True." ∧
      (delete_deploy api name ns true).2 = [.delete_namespaced_deployment name ns]) ∧
    ((delete_svc api name ns false).2 = [] ∧
      (delete_svc api name ns false).1 =
        "Confirm deletion of service '" ++ name ++ "' in ns '" ++ ns
          ++ "' by setting cfm=True." ∧
      (delete_svc api name ns true).2 = [.delete_namespaced_service name ns]) ∧
    ((delete_secret api name ns false).2 = [] ∧
      (delete_secret api name ns false).1.status = "confirm_required" ∧
      (delete_secret api name ns true).2 = [.delete_namespaced_secret name ns]) ∧
    ((delete_ingress api name ns false).2 = [] ∧
      (delete_ingress api name ns false).1.status = "confirm_needed" ∧
      (delete_ingress api name ns true).2 = [.delete_namespaced_ingress name ns]) ∧
    ((del_pvc api name ns false).2 = [] ∧
      (del_pvc api name ns false).1 =
        "Confirm to delete PVC '" ++ name ++ "' in ns '" ++ ns
          ++ "'. Say: yes, delete pvc " ++ name ++ "." ∧
      (del_pvc api name ns true).2 =
        [.delete_namespaced_persistent_volume_claim name ns]) ∧
    ((delete_hpa api name ns false).2 = [] ∧
      (delete_hpa api name ns false).1 =
        "Confirmation required to delete HPA '" ++ name ++ "' in namespace '"
          ++ ns ++ "'. Please confirm by saying 'yes, delete hpa " ++ name ++ "'." ∧
      (delete_hpa api name ns true).2 =
        [.delete_namespaced_horizontal_pod_autoscaler name ns]) := by
  refine ⟨⟨rfl, rfl, ?_⟩, ⟨rfl, rfl, ?_⟩, ⟨rfl, rfl, ?_⟩, ⟨rfl, rfl, ?_⟩,
    ⟨rfl, rfl, ?_⟩, ⟨rfl, rfl, ?_⟩, ⟨rfl, rfl, ?_⟩, ⟨rfl, rfl, ?_⟩⟩
  · unfold del_pod
    cases api (.delete_namespaced_pod name ns) <;> simp
  · unfold del_ns
    cases api (.delete_namespace name) <;> simp
  · unfold delete_deploy
    cases api (.delete_namespaced_deployment name ns) <;> simp
  · unfold delete_svc
    cases api (.delete_namespaced_service name ns) <;> simp
  · unfold delete_secret
    cases api (.delete_namespaced_secret name ns) <;> simp
  · unfold delete_ingress
    cases api (.delete_namespaced_ingress name ns) <;> simp
  · unfold del_pvc
    cases api (.delete_namespaced_persistent_volume_claim name ns) <;> simp
  · unfold delete_hpa
    cases api (.delete_namespaced_horizontal_pod_autoscaler name ns) <;> simp

/-! ## Chat request processing (src/app/chat.py lines 11-66) -/

/-- `ChatMessage` (models.py lines 37-40). -/
structure ChatRequestMessage where
  role : String
  content : String
  name : Option String
deriving Repr, DecidableEq

/-- `ChatRequest` (models.py lines 42-47); the temperature is a Python float,
modelled as `ℚ`. -/
structure ChatRequest where
  messages : List ChatRequestMessage
  model : Option String
  temperature : Option ℚ
  max_tokens : Option Nat
  stream : Bool
deriving Repr, DecidableEq

/-- A user's LLM configuration as `get_user_llm_config` returns it. -/
structure LLMConfigData where
  provider : String
  api_key : String
  model : String
  temperature : ℚ
deriving Repr, DecidableEq

/-- `process_chat_request` (chat.py lines 11-66).  External collaborators are
parameters: `llm_config` is the result of `get_user_llm_config`,
`agentProcess` is the configured agent's `process_messages` (the adapter
behind it), `session_id` the generated uuid and `now` the clock; the two
`raise ValueError` statements become `.error`.  The database save is a side
effect with no bearing on the returned response. -/
def process_chat_request (llm_config : Option LLMConfigData)
    (agentProcess : List Message → AgentResponse)
    (session_id : String) (now : Nat) (request : ChatRequest) :
    Except String ChatResponse :=
  match llm_config with
  | none => .error "No LLM configuration found. Please configure your LLM provider first."
  | some cfg0 =>
    let cfg1 := match request.model with
      | some m => { cfg0 with model := m }
      | none => cfg0
    let cfg := match request.temperature with
      | some t => { cfg1 with temperature := t }
      | none => cfg1
    if request.messages = [] then .error "The messages list is empty."
    else
      let messages := request.messages.map fun msg =>
        ({ role := msg.role, content := msg.content } : Message)
      let agent_response := agentProcess messages
      .ok (convert_to_openai_format session_id cfg.model agent_response messages now)

/-- C8, counterexample --- At the concrete request with the single non-empty
message `"hello"` and an agent/adapter pipeline returning the fixed content
`C = " "` (a non-empty string), `process_chat_request` succeeds with the
single choice carrying `" "` but `completion_tokens = 0`: the claim's
`completion_tokens ≥ 1` for every non-empty `C` is false (word counting sends
whitespace-only content to 0). -/
theorem process_chat_request_whitespace_content :
    process_chat_request
        (some { provider := "openai", api_key := "k", model := "m", temperature := 7/10 })
        (fun _ => { content := " ", tools_used := [] }) "sid" 0
        { messages := [{ role := "user", content := "hello", name := none }],
          model := none, temperature := none, max_tokens := none, stream := false }
      = .ok { id := "sid", object := "chat.completion", created := 0, model := "m",
              choices := [⟨0, ⟨"assistant", " "⟩, "stop"⟩],
              usage := ⟨1, 0, 1⟩ } ∧
    (" " : String) ≠ "" := by
  exact ⟨rfl, by decide⟩

/-- C8, amended --- For every canonical request with a non-empty message list
and a mock adapter/agent pipeline returning the fixed content string `C`,
`process_chat_request` yields a response with the single choice carrying
exactly `C`, with `prompt_tokens ≥ 1` whenever the request messages contain at
least one whitespace-separated word, and `completion_tokens ≥ 1` whenever `C`
contains at least one word (rather than whenever `C` is merely non-empty). -/
theorem process_chat_request_roundtrip (cfg : LLMConfigData) (C : String)
    (tools : List String) (session_id : String) (now : Nat) (request : ChatRequest)
    (hne : request.messages ≠ []) :
    ∃ resp, process_chat_request (some cfg) (fun _ => { content := C, tools_used := tools })
        session_id now request = .ok resp ∧
      resp.choices = [⟨0, ⟨"assistant", C⟩, "stop"⟩] ∧
      (1 ≤ (request.messages.map (fun m => wordCount m.content)).sum →
        1 ≤ resp.usage.prompt_tokens) ∧
      (1 ≤ wordCount C → 1 ≤ resp.usage.completion_tokens) := by
  simp only [process_chat_request]
  rw [if_neg hne]
  refine ⟨_, rfl, rfl, ?_, ?_⟩
  · intro h
    simp only [convert_to_openai_format, List.map_map, Function.comp_def]
    exact_mod_cast h
  · intro h
    simp only [convert_to_openai_format]
    exact_mod_cast h

/-- Witness for C8 (amended) at a concrete one-message request and `C = "ok"`. -/
theorem process_chat_request_roundtrip_witness :
    ∃ resp, process_chat_request
        (some { provider := "openai", api_key := "k", model := "m", temperature := 7/10 })
        (fun _ => { content := "ok", tools_used := [] }) "sid" 0
        { messages := [{ role := "user", content := "hello", name := none }],
          model := none, temperature := none, max_tokens := none, stream := false }
      = .ok resp ∧
      resp.choices = [⟨0, ⟨"assistant", "ok"⟩, "stop"⟩] ∧
      (1 ≤ ([({ role := "user", content := "hello", name := none } : ChatRequestMessage)].map
          (fun m => wordCount m.content)).sum → 1 ≤ resp.usage.prompt_tokens) ∧
      (1 ≤ wordCount "ok" → 1 ≤ resp.usage.completion_tokens) :=
  process_chat_request_roundtrip
    { provider := "openai", api_key := "k", model := "m", temperature := 7/10 }
    "ok" [] "sid" 0
    { messages := [{ role := "user", content := "hello", name := none }],
      model := none, temperature := none, max_tokens := none, stream := false }
    (by simp)

/-! ## Keyword-fallback agent (src/app/agent.py lines 118-179 and the
`k8s_tools` registry, src/app/k8s_tools.py lines 815-832) -/

/-- A registry entry as `SimpleAgent` probes it: `pyName` is the Python
function's `__name__`; `nameAttr` is the value of its `name` attribute when
the object has one (`hasattr(tool, 'name')`).  The registry holds plain
Python functions, which have `__name__` but no `name` attribute. -/
structure RegisteredTool where
  pyName : String
  nameAttr : Option String
deriving Repr, DecidableEq

/-- The `k8s_tools` list (k8s_tools.py lines 815-832): 36 plain functions in
source order, none of which carries a `name` attribute. -/
def k8s_tools : List RegisteredTool :=
  (["list_namespaces", "get_pod", "list_pods", "get_pod_logs",
    "get_events", "get_deploy_status", "get_configmap",
    "get_secret", "create_secret", "delete_secret",
    "get_ingress", "create_ingress", "delete_ingress",
    "get_node_status", "get_cluster_status",
    "get_hpa_status", "list_hpas", "create_hpa", "delete_hpa",
    "desc_res",
    "create_pod", "del_pod",
    "create_ns", "del_ns",
    "create_deploy", "delete_deploy", "scale_deployments",
    "create_svc", "delete_svc",
    "list_svc", "list_deployments",
    "create_pvc", "del_pvc", "get_pvc", "list_pvcs",
    "list_network_policies"]).map fun n => { pyName := n, nameAttr := none }

/-- The `keyword_map` of `SimpleAgent._select_tool_by_keywords`
(agent.py lines 162-171), in iteration order. -/
def keyword_map : List (String × String) :=
  [("pods", "get_pods"), ("services", "get_services"),
   ("deployments", "get_deployments"), ("logs", "get_logs"),
   ("describe", "describe_resource"), ("create", "create_resource"),
   ("delete", "delete_resource"), ("scale", "scale_deployment")]

/-- Python's `a in b` on strings, prefix check: is `needle` an initial segment
of the haystack? -/
def charsPrefixOf : List Char → List Char → Bool
  | [], _ => true
  | _ :: _, [] => false
  | a :: as, b :: bs => a == b && charsPrefixOf as bs

/-- Python's `a in b` on strings: does `needle` occur contiguously in the
haystack? -/
def charsContains (needle : List Char) : List Char → Bool
  | [] => charsPrefixOf needle []
  | h :: t => charsPrefixOf needle (h :: t) || charsContains needle t

/-- The inner loop of `_select_tool_by_keywords`: first registry entry whose
`name` attribute exists and equals `tool_name`. -/
def findNamedTool (tools : List RegisteredTool) (tool_name : String) :
    Option RegisteredTool :=
  tools.find? fun tool => tool.nameAttr == some tool_name

/-- `SimpleAgent._select_tool_by_keywords` (agent.py lines 158-179): for each
keyword (in table order) contained in the lower-cased input, return the first
registry entry named like its mapped tool name; `none` when every keyword
fails. -/
def select_tool_by_keywords (user_input : String) : Option RegisteredTool :=
  let lower := user_input.data.map Char.toLower
  (keyword_map.filterMap fun kv =>
    if charsContains kv.1.data lower then findNamedTool k8s_tools kv.2
    else none).head?

/-- The dictionary `adapter.call_raw` returns, as `SimpleAgent` reads it: only
the top-level `content` key (`llm_response.get("content", ...)`). -/
structure RawCallResponse where
  content : Option String
deriving Repr, DecidableEq

namespace SimpleAgent

/-- `SimpleAgent.process_messages` (agent.py lines 125-156): keyword-select at
most one tool; if found, report simulated execution with that tool's name in
`tools_used`; otherwise forward the conversation to the adapter for a plain
completion with no tool use. -/
def process_messages (call_raw : List Message → Except String RawCallResponse)
    (messages : List Message) : AgentResponse :=
  let user_input := match messages.getLast? with
    | some m => m.content
    | none => ""
  match select_tool_by_keywords user_input with
  | some selected_tool =>
    { content := "I used the " ++ selected_tool.nameAttr.getD "" ++
        " tool. Tool execution simulated",
      tools_used := [selected_tool.nameAttr.getD ""] }
  | none =>
    match call_raw messages with
    | .ok llm_response =>
      { content := llm_response.content.getD "I'm not sure how to help with that.",
        tools_used := [] }
    | .error e =>
      { content := "I encountered an error: " ++ e, tools_used := [] }

end SimpleAgent

/-- C9 --- Evaluation at the claim's input: for the request whose single
message is `{role:"user", content:"list pods in default"}` the keyword table
maps `"pods"` to `"get_pods"`, a name that exists nowhere in the registry, and
no registry entry has a `name` attribute at all, so NO tool is selected; the
fallback agent forwards the conversation to the adapter and returns
`tools_used = []`, not the claimed single-element set naming a pod-listing
tool. -/
theorem simple_agent_list_pods_selects_no_tool :
    select_tool_by_keywords "list pods in default" = none ∧
    (SimpleAgent.process_messages (fun _ => .ok { content := none })
        [{ role := "user", content := "list pods in default" }]).tools_used = [] ∧
    (SimpleAgent.process_messages (fun _ => .ok { content := none })
        [{ role := "user", content := "list pods in default" }]).content
      = "I'm not sure how to help with that." := by
  refine ⟨by decide, by decide, by decide⟩

end ChatSys
